import Mathlib

/-!
Verification of the pipeline-execution engine in
`astropop/pipelines/pipeline.py` (classes `Config`, `Product`, `Instrument`,
`ProductManager`, `Stage`, `Processor`).

The Python code is shallowly embedded: every instance `__dict__` becomes an
association list from attribute names to dynamic values, exceptions become
`Except PyErr`, and generators/loops become explicit recursion.  Each Lean
definition mirrors one Python method; comments quote the relevant source
lines where the translation is not obvious.

`Config`, `Instrument` and `Product` override `__getattribute__` with a body
that itself evaluates `self.__dict__` — an attribute access that re-enters
the same method with no base case.  Attribute access on these classes is
therefore modelled with an explicit recursion budget (Python's recursion
limit): exhausting it is `RecursionError`, and the remainder of each method
body is translated faithfully even though control can never reach it.
-/

/-- A dynamic (Python-style) value.  Only the shapes exercised by the
pipeline module are represented. -/
inductive PyVal where
  | pynone
  | pybool (b : Bool)
  | pyint (n : Int)
  | pystr (s : String)
  | pylist (l : List PyVal)
  | pydict (entries : List (String × PyVal))

/-- Python truthiness (`bool(v)`) for the represented values. -/
def PyVal.truthy : PyVal → Bool
  | .pynone => false
  | .pybool b => b
  | .pyint n => decide (n ≠ 0)
  | .pystr s => decide (s ≠ "")
  | .pylist l => !l.isEmpty
  | .pydict entries => !entries.isEmpty

/-- The Python exception classes raised by the module (plus the interpreter
level `RecursionError` used to bound unboundedly recursive executions). -/
inductive PyErr where
  | valueError (msg : String)
  | runtimeError (msg : String)
  | typeError
  | indexError
  | attributeError
  | notImplementedError
  | recursionError
deriving DecidableEq

/-- Lookup in an instance `__dict__`, first match (Python dicts hold each
key once, so first match is the match). -/
def assocLookup {κ α : Type} [DecidableEq κ] : List (κ × α) → κ → Option α
  | [], _ => Option.none
  | (k0, v0) :: rest, k => if k0 = k then some v0 else assocLookup rest k

/-- `d[k] = v` on a Python dict: overwrite in place if the key exists,
otherwise append (insertion order preserved, as Python dicts do). -/
def assocInsert {κ α : Type} [DecidableEq κ] : List (κ × α) → κ → α → List (κ × α)
  | [], k, v => [(k, v)]
  | (k0, v0) :: rest, k, v =>
      if k0 = k then (k0, v) :: rest else (k0, v0) :: assocInsert rest k v

/-- `class Config`: its state is the instance `__dict__`. -/
structure Config where
  d : List (String × PyVal)

/-- `Config.__getattribute__(self, name)` with an explicit recursion
budget.  The body is `if name in self.__dict__.keys(): return
object.__getattribute__(self, name) else: return None`, but evaluating the
expression `self.__dict__` is itself an attribute access, which re-enters
this very method with the name `__dict__` before anything else runs; there
is no base case, so every call descends until the interpreter recursion
limit (the budget here) is exhausted and raises `RecursionError`.  The rest
of the body — reachable only if the `self.__dict__` evaluation returned —
is translated all the same: a keys-membership test on the obtained value
(`keys()` on a non-dict would raise `AttributeError`), then the real
`object.__getattribute__` read from the instance state `c.d`, else
`None`. -/
def Config.getattribute (c : Config) : Nat → String → Except PyErr PyVal
  | 0, _ => Except.error PyErr.recursionError
  | fuel + 1, name =>
      match c.getattribute fuel "__dict__" with
      | Except.error e => Except.error e
      | Except.ok dictVal =>
          match dictVal with
          | PyVal.pydict entries =>
              if (entries.map Prod.fst).contains name then
                Except.ok ((assocLookup c.d name).getD PyVal.pynone)
              else Except.ok PyVal.pynone
          | _ => Except.error PyErr.attributeError

/-- `Config.__setattr__`: `if not self.frozen: self.__dict__[name] = value`.
The `self.frozen` read goes through the recursing `__getattribute__`, and
so does the `self.__dict__` read of the assignment. -/
def Config.setattr (c : Config) (fuel : Nat) (name : String) (value : PyVal) :
    Except PyErr Config :=
  match c.getattribute fuel "frozen" with
  | Except.error e => Except.error e
  | Except.ok frozenVal =>
      if frozenVal.truthy then Except.ok c
      else
        match c.getattribute fuel "__dict__" with
        | Except.error e => Except.error e
        | Except.ok _ => Except.ok ⟨assocInsert c.d name value⟩

/-- The loop of `Config.__init__(**kwargs)`: each iteration performs
`self.__dict__[name] = value`, whose `self.__dict__` read goes through the
recursing `__getattribute__`. -/
def Config.initLoop (fuel : Nat) : Config → List (String × PyVal) → Except PyErr Config
  | c, [] => Except.ok c
  | c, (k, v) :: rest =>
      match c.getattribute fuel "__dict__" with
      | Except.error e => Except.error e
      | Except.ok _ => Config.initLoop fuel ⟨assocInsert c.d k v⟩ rest

/-- `Config.__init__(**kwargs)` starting from an empty instance
`__dict__`: `Config()` with no keywords performs no attribute access and
succeeds; any keyword enters the recursing loop. -/
def Config.init (fuel : Nat) (kwargs : List (String × PyVal)) : Except PyErr Config :=
  Config.initLoop fuel ⟨[]⟩ kwargs

/-- `class Instrument`: the source duplicates the `Config` body verbatim in
a separate class; the embedding does the same. -/
structure Instrument where
  d : List (String × PyVal)

/-- `Instrument.__getattribute__` (same body as `Config`, same
recursion). -/
def Instrument.getattribute (i : Instrument) : Nat → String → Except PyErr PyVal
  | 0, _ => Except.error PyErr.recursionError
  | fuel + 1, name =>
      match i.getattribute fuel "__dict__" with
      | Except.error e => Except.error e
      | Except.ok dictVal =>
          match dictVal with
          | PyVal.pydict entries =>
              if (entries.map Prod.fst).contains name then
                Except.ok ((assocLookup i.d name).getD PyVal.pynone)
              else Except.ok PyVal.pynone
          | _ => Except.error PyErr.attributeError

/-- `Instrument.__setattr__` (same body as `Config`). -/
def Instrument.setattr (i : Instrument) (fuel : Nat) (name : String) (value : PyVal) :
    Except PyErr Instrument :=
  match i.getattribute fuel "frozen" with
  | Except.error e => Except.error e
  | Except.ok frozenVal =>
      if frozenVal.truthy then Except.ok i
      else
        match i.getattribute fuel "__dict__" with
        | Except.error e => Except.error e
        | Except.ok _ => Except.ok ⟨assocInsert i.d name value⟩

/-- `class Product`: its state is the instance `__dict__`. -/
structure Product where
  d : List (String × PyVal)

/-- `Product.__getattribute__` (same body as `Config`, same recursion). -/
def Product.getattribute (p : Product) : Nat → String → Except PyErr PyVal
  | 0, _ => Except.error PyErr.recursionError
  | fuel + 1, name =>
      match p.getattribute fuel "__dict__" with
      | Except.error e => Except.error e
      | Except.ok dictVal =>
          match dictVal with
          | PyVal.pydict entries =>
              if (entries.map Prod.fst).contains name then
                Except.ok ((assocLookup p.d name).getD PyVal.pynone)
              else Except.ok PyVal.pynone
          | _ => Except.error PyErr.attributeError

/-- `Product.__setattr__`: no frozen check (Products are meant to stay
writable), but the `self.__dict__` read of the assignment still goes
through the recursing `__getattribute__`. -/
def Product.setattr (p : Product) (fuel : Nat) (name : String) (value : PyVal) :
    Except PyErr Product :=
  match p.getattribute fuel "__dict__" with
  | Except.error e => Except.error e
  | Except.ok _ => Except.ok ⟨assocInsert p.d name value⟩

/-- The kwargs loop of `Product.__init__` (direct `self.__dict__[name] =
value` writes, like `Config.__init__`). -/
def Product.initLoop (fuel : Nat) : Product → List (String × PyVal) → Except PyErr Product
  | p, [] => Except.ok p
  | p, (k, v) :: rest =>
      match p.getattribute fuel "__dict__" with
      | Except.error e => Except.error e
      | Except.ok _ => Product.initLoop fuel ⟨assocInsert p.d k v⟩ rest

/-- `Product.__init__(product_manager, raw_files=[], ccddata=None,
**kwargs)`: three plain assignments (each through `__setattr__`), then the
kwargs loop.  Line 47 assigns `self.raw_files = []`, a fresh empty list —
the `raw_files` argument is never read.  `raw_files` is an explicit
parameter, so Python keyword binding keeps it out of `kwargs`. -/
def Product.init (fuel : Nat) (product_manager : PyVal) (_raw_files : PyVal)
    (ccddata : PyVal) (kwargs : List (String × PyVal)) : Except PyErr Product :=
  match Product.setattr ⟨[]⟩ fuel "product_manager" product_manager with
  | Except.error e => Except.error e
  | Except.ok p1 =>
      match p1.setattr fuel "raw_files" (PyVal.pylist []) with
      | Except.error e => Except.error e
      | Except.ok p2 =>
          match p2.setattr fuel "ccddata" ccddata with
          | Except.error e => Except.error e
          | Except.ok p3 => Product.initLoop fuel p3 kwargs

/-- `class ProductManager`: `processor` is the back reference given to
`__init__` (kept as an opaque identifier), `products` the ordered list,
`iterating` the single-iteration guard. -/
structure ProductManager where
  processor : Nat
  products : List Product
  iterating : Bool

/-- `ProductManager.number_of_products` property. -/
def ProductManager.number_of_products (pm : ProductManager) : Nat :=
  pm.products.length

/-- The generator body `while i < self.number_of_products: yield
self.products[i]; i += 1`, as an index walk from `i`. -/
def iterLoop {α : Type} (l : List α) (i : Nat) : List α :=
  if h : i < l.length then l.get ⟨i, h⟩ :: iterLoop l (i + 1) else []
termination_by l.length - i
decreasing_by omega

/-- `ProductManager.iterate_products`, run to exhaustion.  On success the
result carries the value of the `iterating` guard while the generator body
runs, the yielded items, and the manager state after the generator
finishes (`self.iterating = False`). -/
def ProductManager.iterate_products (pm : ProductManager) :
    Except PyErr (Bool × List Product × ProductManager) :=
  if pm.number_of_products = 0 then
    Except.error (PyErr.valueError "No products available in this product manager.")
  else
    let pmIter : ProductManager := { pm with iterating := true }
    Except.ok (pmIter.iterating, iterLoop pmIter.products 0, { pmIter with iterating := false })

/-- The configuration values handed to `Stage.__call__`: either `None` or a
plain `dict` mapping child names to sub-configurations (the shape the
nested-configuration contract in `_run_children` relies on). -/
inductive Cfg where
  | pynone
  | pydict (entries : List (String × Cfg))

/-- `config.get(name, None)` as executed in `Stage._run_children`: a `dict`
answers its `get` method (absent key, or a child never given a name, yields
`None`), while `None` has no attribute `get` — the lookup of the bound
method is what the custom-free attribute access turns into an
`AttributeError` at the call site. -/
def Cfg.getName : Cfg → Option String → Except PyErr Cfg
  | Cfg.pynone, _ => Except.error PyErr.attributeError
  | Cfg.pydict _, Option.none => Except.ok Cfg.pynone
  | Cfg.pydict entries, some k => Except.ok ((assocLookup entries k).getD Cfg.pynone)

/-- The `Stage` object graph.  In the source, `_children = []` is a
class-level attribute of `Stage` and no instance ever assigns
`self._children`, so every instance `self._children` resolves to the one
shared class list.  `name` and `parent` are set per instance by
`add_children` (class defaults: `None`).  Stages are identified by opaque
ids. -/
structure StageSys where
  _children : List Nat
  names : List (Nat × String)
  parents : List (Nat × Nat)
deriving DecidableEq

/-- `self._children` as seen from any instance: the shared class list. -/
def StageSys.childrenOf (sys : StageSys) (_self : Nat) : List Nat :=
  sys._children

/-- `stage.name` (instance attribute, class default `None`). -/
def StageSys.nameOf (sys : StageSys) (stage : Nat) : Option String :=
  assocLookup sys.names stage

/-- `stage.parent` (instance attribute, class default `None`). -/
def StageSys.parentOf (sys : StageSys) (stage : Nat) : Option Nat :=
  assocLookup sys.parents stage

/-- `Stage.add_children(self, name, stage)`:
`if stage not in self._children: append; stage.parent = self;
stage.name = name` — no branch raises, a duplicate is silently skipped. -/
def StageSys.add_children (sys : StageSys) (self : Nat) (name : String)
    (stage : Nat) : StageSys :=
  if stage ∈ sys._children then sys
  else { sys with
         _children := sys._children ++ [stage],
         parents := assocInsert sys.parents stage self,
         names := assocInsert sys.names stage name }

/-- `Stage.add_children` wrapped in the exception monad: the method body
contains no `raise`, so every call returns normally. -/
def StageSys.add_childrenE (sys : StageSys) (self : Nat) (name : String)
    (stage : Nat) : Except PyErr StageSys :=
  Except.ok (sys.add_children self name stage)

/-- One frame of the flattened `Stage.__call__` execution:
`enter s config` is `s.__call__(product, config, instrument)` about to run
`self.run`; `child c parentCfg` is the `_run_children` loop iteration about
to evaluate `config.get(c.name, None)` for child `c`. -/
inductive Frame where
  | enter (s : Nat) (config : Cfg)
  | child (c : Nat) (parentCfg : Cfg)

/-- Small-step execution of a worklist of frames, depth-first and
left-to-right exactly as the Python call stack unwinds.  Each `enter`
records the `run` invocation `(stage, config, instrument)` (the concrete
scenario stages record their call and return) and queues the children of
the shared class list; each `child` performs the sub-config lookup and, on
success, enters the child.  The first raised exception aborts everything,
keeping the trace produced so far; exhausted fuel stands for Python's
`RecursionError`. -/
def StageSys.dispatch (sys : StageSys) (inst : Nat) :
    Nat → List Frame → List (Nat × Cfg × Nat) × Option PyErr
  | 0, _ => ([], some PyErr.recursionError)
  | _ + 1, [] => ([], Option.none)
  | fuel + 1, Frame.enter s config :: rest =>
      let pending := (sys.childrenOf s).map (fun c => Frame.child c config) ++ rest
      let (tr, err) := sys.dispatch inst fuel pending
      ((s, config, inst) :: tr, err)
  | fuel + 1, Frame.child c parentCfg :: rest =>
      match Cfg.getName parentCfg (sys.nameOf c) with
      | Except.error e => ([], some e)
      | Except.ok conf => sys.dispatch inst fuel (Frame.enter c conf :: rest)

/-- `stage(product, config, instrument)` — `Stage.__call__` run to
completion (or to its first exception), returning the sequence of `run`
invocations with the configuration and instrument each one received. -/
def StageSys.callTrace (sys : StageSys) (fuel : Nat) (s : Nat) (config : Cfg)
    (inst : Nat) : List (Nat × Cfg × Nat) × Option PyErr :=
  sys.dispatch inst fuel [Frame.enter s config]

/-- `class Processor`: the attributes assigned by `__init__` (and only
those — in particular there is no attribute named `config`).  `instrument`
starts as `None`; stage entries pair the registered name with an opaque
stage id. -/
structure Processor where
  prod_manager : ProductManager
  instrument : Option Nat
  config_dict : List (String × Cfg)
  _stages : List (String × Nat)
  _processing_stage : Option Nat
  running : Bool

/-- `Processor.number_of_stages` property. -/
def Processor.number_of_stages (p : Processor) : Nat :=
  p._stages.length

/-- `Processor.set_current_stage(index)`: only allowed while running. -/
def Processor.set_current_stage (p : Processor) (index : Nat) :
    Except PyErr Processor :=
  if p.running then Except.ok { p with _processing_stage := some index }
  else
    Except.error (PyErr.valueError
      "Current stage set only available when pipeline is running.")

/-- Python `list.insert` clamps the index to the end of the list. -/
def pyInsert {α : Type} (l : List α) (i : Nat) (a : α) : List α :=
  l.take i ++ a :: l.drop i

/-- `Processor.add_stage(name, stage, index=None)`.  The duplicate check is
`if name in self._stages[:][0]`: `self._stages[:]` is a copy of the stage
list and `[0]` its first element, so an empty list raises `IndexError`, and
otherwise `name in (name0, stage0)` only compares `name` against the first
entry (`name == stage0` is a string/Stage comparison, always false).  The
`running` check comes after; the `isinstance(stage, Stage)` check cannot
fail in the typed embedding, where `stage` is a stage id. -/
def Processor.add_stage (p : Processor) (name : String) (stage : Nat)
    (index : Option Nat) : Except PyErr Processor :=
  match p._stages with
  | [] => Except.error PyErr.indexError
  | (name0, _) :: _ =>
      if name = name0 then
        Except.error (PyErr.valueError
          ("Stage " ++ name ++ " already in the pipeline."))
      else if p.running then
        Except.error (PyErr.runtimeError "Pipeline running, cannot add stages.")
      else
        match index with
        | some i => Except.ok { p with _stages := pyInsert p._stages i (name, stage) }
        | Option.none => Except.ok { p with _stages := p._stages ++ [(name, stage)] }

/-- `Processor.get_index(name)`: the body is `for i in
self.number_of_stages: ...` — iterating over an `int`, which raises
`TypeError` before any comparison is made. -/
def Processor.get_index (_p : Processor) (_name : String) :
    Except PyErr (Option Nat) :=
  Except.error PyErr.typeError

/-- `Processor.remove_stage(name)`: the `running` guard, then
`index = self.get_index(name)` (which always raises, see above), then
`self._stages.pop(index)` — with `pop(None)` a `TypeError` and `pop(i)` a
positional removal, kept for the unreachable success path. -/
def Processor.remove_stage (p : Processor) (name : String) :
    Except PyErr Processor :=
  if p.running then
    Except.error (PyErr.runtimeError "Pipeline running, cannot remove stages.")
  else
    match p.get_index name with
    | Except.error e => Except.error e
    | Except.ok Option.none => Except.error PyErr.typeError
    | Except.ok (some i) =>
        if i < p._stages.length then
          Except.ok { p with _stages := p._stages.eraseIdx i }
        else Except.error PyErr.indexError

/-- `self.config` read inside `Processor.run` (line 244): the class defines
`config_dict` in `__init__` and no attribute, property or class member
named `config` anywhere, so ordinary Python attribute lookup raises
`AttributeError`. -/
def Processor.config_attr (_p : Processor) : Except PyErr (List (String × Cfg)) :=
  Except.error PyErr.attributeError

/-- The semantics of `stage(prod, config, instrument=self.instrument)` as
seen from `Processor.run`: given the stage id, the product, the resolved
configuration and the processor state, produce the processor state after
the call (stages may mutate it through `set_current_stage`) or an
exception.  `Processor.run` is proved to fail for every such semantics, so
it is kept abstract. -/
def InvokeSem : Type :=
  Nat → Product → Option Cfg → Processor → Except PyErr Processor

/-- The `while self._processing_stage < self.number_of_stages` loop of
`Processor.run` for one product: fetch `(stage_name, stage)` at the
pointer, advance the pointer, evaluate `self.config.keys()` (which raises
`AttributeError`, see `Processor.config_attr`), resolve the per-stage
configuration, invoke the stage. -/
def Processor.stageLoop (invoke : InvokeSem) : Nat → Processor → Product →
    Except PyErr Processor
  | 0, _, _ => Except.error PyErr.recursionError
  | fuel + 1, p, prod =>
      match p._processing_stage with
      | Option.none => Except.error PyErr.typeError
      | some i =>
          if i < p.number_of_stages then
            match p._stages[i]? with
            | Option.none => Except.error PyErr.indexError
            | some (stage_name, stage) =>
                let p1 : Processor := { p with _processing_stage := some (i + 1) }
                match p1.config_attr with
                | Except.error e => Except.error e
                | Except.ok cfgd =>
                    let config := assocLookup cfgd stage_name
                    match invoke stage prod config p1 with
                    | Except.error e => Except.error e
                    | Except.ok p2 => Processor.stageLoop invoke fuel p2 prod
          else Except.ok p

/-- `for prod in self.prod_manager.products`: each product starts with the
pointer reset to 0. -/
def Processor.runProducts (invoke : InvokeSem) (fuel : Nat) :
    Processor → List Product → Except PyErr Processor
  | p, [] => Except.ok p
  | p, prod :: rest =>
      match Processor.stageLoop invoke fuel { p with _processing_stage := some 0 } prod with
      | Except.error e => Except.error e
      | Except.ok p2 => Processor.runProducts invoke fuel p2 rest

/-- `Processor.run()`: the two emptiness guards, `running = True`, the
product loop, then `running = False` and the pointer reset to `None`. -/
def Processor.runWith (invoke : InvokeSem) (fuel : Nat) (p : Processor) :
    Except PyErr Processor :=
  if p.number_of_stages = 0 then
    Except.error (PyErr.valueError "This pipeline has no stages.")
  else if p.prod_manager.number_of_products = 0 then
    Except.error (PyErr.valueError "This pipeline has no products.")
  else
    let p1 : Processor := { p with running := true }
    match Processor.runProducts invoke fuel p1 p1.prod_manager.products with
    | Except.error e => Except.error e
    | Except.ok p2 =>
        Except.ok { p2 with running := false, _processing_stage := Option.none }

/-! Concrete states used to evaluate the definitions. -/

/-- A product registered with the manager, given directly by its instance
state (the scheduler treats products as opaque payloads, and
`Product.__init__` is proved never to return normally). -/
def pSample : Product := ⟨[("extra", PyVal.pyint 4)]⟩

/-- A `ProductManager` holding no products. -/
def pmEmpty : ProductManager := ⟨0, [], false⟩

/-- A `ProductManager` holding one product. -/
def pmOne : ProductManager := ⟨0, [pSample], false⟩

/-- A fresh `Stage` world: empty shared children list, no names, no
parents. -/
def sysNil : StageSys := ⟨[], [], []⟩

/-- After `parent.add_children('X', x)` (parent id 0, x id 1). -/
def sysX : StageSys := sysNil.add_children 0 "X" 1

/-- After also `parent.add_children('Y', y)` (y id 2): the shared children
list is `[x, y]`. -/
def sysXY : StageSys := sysX.add_children 0 "Y" 2

/-- The nested configuration `{X: {}, Y: {}}` of the two-children
scenario. -/
def cfgXY : Cfg := Cfg.pydict [("X", Cfg.pydict []), ("Y", Cfg.pydict [])]

/-- A `Processor` with products but an empty stage list. -/
def procNoStages : Processor := ⟨pmOne, Option.none, [], [], Option.none, false⟩

/-- A `Processor` with stages `[('a', s0), ('b', s1)]`, not running. -/
def procAB : Processor := ⟨pmOne, Option.none, [], [("a", 0), ("b", 1)], Option.none, false⟩

/-- A `Processor` with stages `[('A', a), ('B', b), ('C', c)]` and one
registered product, ready to run. -/
def procABC : Processor :=
  ⟨pmOne, Option.none, [], [("A", 0), ("B", 1), ("C", 2)], Option.none, false⟩

/-! Association-list helper lemmas. -/

theorem assocLookup_insert_self {κ α : Type} [DecidableEq κ] (l : List (κ × α))
    (k : κ) (v : α) : assocLookup (assocInsert l k v) k = some v := by
  induction l with
  | nil => simp [assocInsert, assocLookup]
  | cons kv rest ih =>
      by_cases hk : kv.1 = k
      · simp [assocInsert, assocLookup, hk]
      · obtain ⟨k0, v0⟩ := kv
        simp only at hk
        simp only [assocInsert, assocLookup, if_neg hk]
        exact ih

/-! Attribute access on `Config`, `Instrument` and `Product` never
returns: the `self.__dict__` evaluation inside `__getattribute__` re-enters
the method with no base case, so any finite recursion budget ends in
`RecursionError`, and everything built on top of it fails the same way. -/

theorem config_getattribute_recursion (c : Config) :
    ∀ (fuel : Nat) (name : String),
      c.getattribute fuel name = Except.error PyErr.recursionError := by
  intro fuel
  induction fuel with
  | zero => intro name; rfl
  | succ fuel ih =>
      intro name
      unfold Config.getattribute
      rw [ih]

theorem instrument_getattribute_recursion (i : Instrument) :
    ∀ (fuel : Nat) (name : String),
      i.getattribute fuel name = Except.error PyErr.recursionError := by
  intro fuel
  induction fuel with
  | zero => intro name; rfl
  | succ fuel ih =>
      intro name
      unfold Instrument.getattribute
      rw [ih]

theorem product_getattribute_recursion (p : Product) :
    ∀ (fuel : Nat) (name : String),
      p.getattribute fuel name = Except.error PyErr.recursionError := by
  intro fuel
  induction fuel with
  | zero => intro name; rfl
  | succ fuel ih =>
      intro name
      unfold Product.getattribute
      rw [ih]

theorem product_setattr_recursion (p : Product) (fuel : Nat) (name : String)
    (value : PyVal) :
    p.setattr fuel name value = Except.error PyErr.recursionError := by
  unfold Product.setattr
  rw [product_getattribute_recursion]

/-! The index walk of `iterate_products` visits exactly the product list. -/

theorem iterLoop_eq_drop_aux {α : Type} :
    ∀ (k : Nat) (l : List α) (i : Nat), l.length ≤ i + k → iterLoop l i = l.drop i := by
  intro k
  induction k with
  | zero =>
      intro l i h
      unfold iterLoop
      rw [dif_neg (by omega)]
      exact (List.drop_eq_nil_of_le (by omega)).symm
  | succ k ih =>
      intro l i h
      unfold iterLoop
      by_cases hi : i < l.length
      · rw [dif_pos hi, ih l (i + 1) (by omega), List.drop_eq_getElem_cons hi]
        rfl
      · rw [dif_neg hi]
        exact (List.drop_eq_nil_of_le (by omega)).symm

theorem iterLoop_zero {α : Type} (l : List α) : iterLoop l 0 = l := by
  have h := iterLoop_eq_drop_aux l.length l 0 (by omega)
  simpa using h

/-! Claim theorems. -/

/-- Claim C1: the spec says `Processor.run()` on stages `[A, B, C]` with one
Product and a loop-back `set_current_stage(0)` in B invokes the stages in
order A, B, A, B, C with per-name configuration lookup.  The code instead
raises `AttributeError` on the first loop iteration — it reads
`self.config`, an attribute the class never defines (only `config_dict`
exists) — before invoking any stage, whatever the stages would do. -/
theorem C1_run_raises_attribute_error (invoke : InvokeSem) (n : Nat) :
    Processor.runWith invoke (n + 1) procABC = Except.error PyErr.attributeError := rfl

/-- Claim C2: the spec says a Stage with children X then Y, invoked with the
config `{X: cfgX, Y: cfgY}`, runs itself, then X with cfgX, then Y with
cfgY.  Because `_children` is one shared class-level list, X's own call
re-dispatches `[X, Y]`: the recorded `run` trace is the parent, X with
`{}`, X again with `None`, then `AttributeError` (from `None.get`) — Y's
`run` never executes. -/
theorem C2_shared_children_break_dispatch :
    sysXY.callTrace 30 0 cfgXY 7 =
      ([(0, cfgXY, 7), (1, Cfg.pydict [], 7), (1, Cfg.pynone, 7)],
        some PyErr.attributeError) ∧
    2 ∉ (sysXY.callTrace 30 0 cfgXY 7).1.map (fun e => e.1) :=
  ⟨rfl, by decide⟩

/-- Claim C3: on a Processor whose stage list is empty, `add_stage` never
appends: the duplicate check `name in self._stages[:][0]` indexes the first
element of a copy of the empty list and raises `IndexError` on every first
add. -/
theorem C3_add_stage_empty_raises (p : Processor) (name : String) (stage : Nat)
    (index : Option Nat) (h : p._stages = []) :
    p.add_stage name stage index = Except.error PyErr.indexError := by
  unfold Processor.add_stage
  rw [h]

theorem C3_add_stage_empty_raises_witness :
    procNoStages._stages = [] ∧
    procNoStages.add_stage "A" 0 Option.none = Except.error PyErr.indexError :=
  ⟨rfl, C3_add_stage_empty_raises procNoStages "A" 0 Option.none rfl⟩

/-- Claim C4: the spec says duplicate names fail with *Duplicate*, mutation
while running fails with *InvalidState*, and `remove_stage` removes by name
or fails with *NotFound*.  On the code, with stages `[('a',s0),('b',s1)]`
and `running = False`: `remove_stage('b')` raises `TypeError` (`get_index`
iterates `for i in self.number_of_stages` over an `int`) instead of
removing; `add_stage('b', s2)` appends a duplicate without error (the
duplicate check only inspects the first entry); and while running,
`add_stage('a', s3)` raises the *Duplicate* `ValueError`, not the
*InvalidState* `RuntimeError`, because the duplicate check runs first. -/
theorem C4_stage_list_ops_broken :
    procAB.remove_stage "b" = Except.error PyErr.typeError ∧
    procAB.add_stage "b" 2 Option.none =
      Except.ok { procAB with _stages := [("a", 0), ("b", 1), ("b", 2)] } ∧
    Processor.add_stage { procAB with running := true } "a" 3 Option.none =
      Except.error (PyErr.valueError "Stage a already in the pipeline.") :=
  ⟨rfl, rfl, rfl⟩

/-- Claim C5: `_children` is a class-level attribute shared by every Stage
instance: after `s1.add_children(name, c)`, the stage `c` is among the
children that any distinct instance `s2` reads (and would dispatch). -/
theorem C5_children_shared_across_instances (sys : StageSys) (s1 s2 : Nat)
    (name : String) (c : Nat) (_h : s1 ≠ s2) :
    c ∈ (sys.add_children s1 name c).childrenOf s2 := by
  unfold StageSys.add_children StageSys.childrenOf
  by_cases hc : c ∈ sys._children
  · simp [hc]
  · simp [hc]

theorem C5_children_shared_witness :
    1 ∈ (sysNil.add_children 0 "X" 1).childrenOf 5 :=
  C5_children_shared_across_instances sysNil 0 5 "X" 1 (by decide)

/-- Claim C6: the spec says a frozen attribute store silently ignores every
subsequent `set` (`set('x',1); freeze(); set('x',2); get('x') == 1`).  On
the code, no `set` on a `Config` or `Instrument` ever completes, frozen or
not: `__setattr__` first reads `self.frozen` through `__getattribute__`,
whose own `self.__dict__` evaluation re-enters itself with no base case, so
every write raises `RecursionError` — nothing is stored and nothing is
silently ignored, and the claimed scenario cannot execute.  The spec (and
the silent-ignore guard the method body clearly intends) is the intent; the
self-recursive `__getattribute__` is the slip. -/
theorem C6_set_raises_recursion (c : Config) (i : Instrument) (fuel : Nat)
    (n m : String) (v w : PyVal) :
    c.setattr fuel n v = Except.error PyErr.recursionError ∧
      i.setattr fuel m w = Except.error PyErr.recursionError := by
  constructor
  · unfold Config.setattr
    rw [config_getattribute_recursion]
  · unfold Instrument.setattr
    rw [instrument_getattribute_recursion]

/-- Claim C7: the spec says reading any unset name from a Config,
Instrument or Product returns `None` and never raises.  On the code the
opposite holds: every attribute read on these classes raises
`RecursionError`, because `__getattribute__` evaluates `self.__dict__`
inside itself with no base case.  The claim matches the intended
lookup-or-`None` body (and the source's own TODO weighing `None` against
raising); the self-recursion is the slip. -/
theorem C7_reads_raise_recursion (c : Config) (i : Instrument) (p : Product)
    (fuel : Nat) (n : String) :
    c.getattribute fuel n = Except.error PyErr.recursionError ∧
      i.getattribute fuel n = Except.error PyErr.recursionError ∧
      p.getattribute fuel n = Except.error PyErr.recursionError :=
  ⟨config_getattribute_recursion c fuel n,
    instrument_getattribute_recursion i fuel n,
    product_getattribute_recursion p fuel n⟩

/-- Claim C8: `iterate_products` over an empty manager fails with the
*Empty* `ValueError`; over N members it yields exactly the N products in
insertion order, with the `iterating` guard true for the duration and false
again on the manager state left after completion. -/
theorem C8_iterate_products_spec (pm : ProductManager) :
    (pm.number_of_products = 0 →
      pm.iterate_products =
        Except.error (PyErr.valueError "No products available in this product manager.")) ∧
    (pm.number_of_products ≠ 0 →
      pm.iterate_products =
        Except.ok (true, pm.products, { pm with iterating := false })) := by
  constructor
  · intro h
    unfold ProductManager.iterate_products
    rw [if_pos h]
  · intro h
    unfold ProductManager.iterate_products
    rw [if_neg h]
    simp only [iterLoop_zero]

theorem C8_iterate_products_witness :
    pmEmpty.iterate_products =
      Except.error (PyErr.valueError "No products available in this product manager.") ∧
    pmOne.iterate_products =
      Except.ok (true, [pSample], { pmOne with iterating := false }) :=
  ⟨(C8_iterate_products_spec pmEmpty).1 rfl,
    (C8_iterate_products_spec pmOne).2 (by decide)⟩

/-- Claim C9 counterexample: the claim says `add_children` fails with a
Duplicate error when the stage is already a child.  With `x` (id 1) already
a child, the call returns normally — the method body has no raise — and
leaves the state unchanged. -/
theorem C9_no_duplicate_error :
    1 ∈ sysX._children ∧ sysX.add_childrenE 0 "X" 1 = Except.ok sysX :=
  ⟨by decide, rfl⟩

/-- Claim C9 as amended: `add_children(name, stage)` silently does nothing
when the stage is already a child (no error is raised); otherwise it
appends the stage to the (shared) children list, assigns the given name to
the child, and sets the child's parent to the receiving stage. -/
theorem C9_add_children_amended (sys : StageSys) (self : Nat) (name : String)
    (c : Nat) :
    (c ∈ sys._children → sys.add_children self name c = sys) ∧
    (c ∉ sys._children →
      (sys.add_children self name c)._children = sys._children ++ [c] ∧
      (sys.add_children self name c).nameOf c = some name ∧
      (sys.add_children self name c).parentOf c = some self) := by
  constructor
  · intro h
    simp [StageSys.add_children, h]
  · intro h
    refine ⟨?_, ?_, ?_⟩ <;>
      simp [StageSys.add_children, h, StageSys.nameOf, StageSys.parentOf,
        assocLookup_insert_self]

theorem C9_add_children_amended_witness :
    sysX.add_children 0 "X" 1 = sysX ∧
    ((sysNil.add_children 0 "X" 1)._children = [1] ∧
      (sysNil.add_children 0 "X" 1).nameOf 1 = some "X" ∧
      (sysNil.add_children 0 "X" 1).parentOf 1 = some 0) :=
  ⟨(C9_add_children_amended sysX 0 "X" 1).1 (by decide),
    (C9_add_children_amended sysNil 0 "X" 1).2 (by decide)⟩

/-- Claim C10: the spec-implied reading of lines 45-51 is that the
`raw_files` argument is discarded and the constructed Product's
`raw_files` field is the empty list.  Line 47 would indeed assign a fresh
`[]` — but no construction ever gets there: the constructor's first
statement `self.product_manager = product_manager` goes through
`__setattr__`, whose `self.__dict__` read recurses, so every call to
`Product(...)` raises `RecursionError` and no Product with any `raw_files`
field is ever constructed. -/
theorem C10_product_ctor_raises (fuel : Nat) (pm rf cd : PyVal)
    (kwargs : List (String × PyVal)) :
    Product.init fuel pm rf cd kwargs = Except.error PyErr.recursionError := by
  unfold Product.init
  rw [product_setattr_recursion]
